import Mathlib

/-!
# Verification of the RAG document-chat server

Shallow embedding of `src/server/server.js` (an Express server that uploads a
PDF, chunks and embeds it into a ChromaDB collection, and answers questions by
retrieval-augmented generation), together with theorems settling the frozen
claims about it.

External collaborators (PDF parser, embedding provider, nearest-neighbour
search, completion model) are modelled as oracle parameters; the ChromaDB
contents, the process-wide globals (`vectorStore`, `currentCollection`) and the
`uploads` directory are modelled as an explicit `ServerState` threaded through
the handlers.
-/

set_option autoImplicit false

namespace RagServer

/-! ## Chunker

The server configures chunking with `chunkSize: 1000, chunkOverlap: 200`
(server.js lines 107-112). -/

def chunkSize : Nat := 1000

def chunkOverlap : Nat := 200

/-- Modelled from the spec: the Chunker itself is implemented by the external
`RecursiveCharacterTextSplitter` library, whose source is not part of this
repository; server.js only configures it with `chunkSize = 1000` and
`chunkOverlap = 200`. Spec section 4.2 describes fixed-size segments obtained by
hard character cuts, each segment after the first overlapping the previous by
`overlap` characters, and degenerate inputs (shorter than `size`) yielding
exactly one segment. `numChunks L` is the number of windows of width
`chunkSize` whose start positions advance by `chunkSize - chunkOverlap`,
stopping as soon as the remaining text fits into one window. -/
def numChunks (L : Nat) : Nat :=
  if L ≤ chunkSize then 1
  else (L - (chunkOverlap + 1)) / (chunkSize - chunkOverlap) + 1

/-- Modelled from the spec: sliding-window chunking of a character list; the
`k`-th segment is the window of `chunkSize` characters starting at offset
`(chunkSize - chunkOverlap) * k`. -/
def chunk (t : List Char) : List (List Char) :=
  (List.range (numChunks t.length)).map
    fun k => (t.drop ((chunkSize - chunkOverlap) * k)).take chunkSize

/-- Modelled from the spec: chunking of a string, segment by segment. -/
def chunkText (s : String) : List String :=
  (chunk s.data).map String.mk

/-- The last `n` characters of a list (all of it when it is shorter). -/
def lastN (n : Nat) (l : List Char) : List Char :=
  l.drop (l.length - n)

/-! ## Data model

Embedding vectors are opaque to the server: it only passes them between the
embedding provider and the vector store. We model them as integer lists. -/

abbrev Embedding := List Int

/-- One `(id, text, embedding)` entry of a ChromaDB collection, as inserted by
`collection.add` (server.js lines 190-200; the adds carry no metadata). -/
structure StoredDoc where
  id : String
  text : String
  embedding : Embedding
deriving DecidableEq, Repr

/-- The mutable state the handlers in server.js touch: the three process-wide
globals declared at lines 57-60 (`chromaClient` is not modelled: the claims
never depend on it), the contents of the ChromaDB collections, and the files
currently stored in the `uploads` directory. -/
structure ServerState where
  /-- `let vectorStore = null` (server.js line 58); never assigned anywhere. -/
  vectorStore : Option String
  /-- `let currentCollection = null` (line 60); holds the handle (here: the
  name) of the collection registered by the most recent successful upload. -/
  currentCollection : Option String
  /-- ChromaDB contents: collection name to stored documents, in order. -/
  collections : List (String × List StoredDoc)
  /-- Paths of the files multer has stored in the `uploads` directory. -/
  uploadsDir : List String
deriving DecidableEq, Repr

/-- Server start-up state: all three globals are `null`, no collections, no
stored uploads. -/
def initState : ServerState :=
  { vectorStore := none, currentCollection := none
    collections := [], uploadsDir := [] }

/-- `chromaClient.getCollection({name})`: the stored documents of the named
collection, if it exists. -/
def lookupColl (cs : List (String × List StoredDoc)) (name : String) :
    Option (List StoredDoc) :=
  match cs with
  | [] => none
  | (n, ds) :: rest => if n = name then some ds else lookupColl rest name

/-- Lines 134-146: get the collection if it exists, otherwise create it empty. -/
def ensureColl (st : ServerState) (name : String) : ServerState :=
  match lookupColl st.collections name with
  | some _ => st
  | none => { st with collections := st.collections ++ [(name, [])] }

/-- One `collection.add` call: append the document to the named collection. -/
def addToColl (st : ServerState) (name : String) (d : StoredDoc) : ServerState :=
  { st with
    collections := st.collections.map
      fun p => if p.1 = name then (p.1, p.2 ++ [d]) else p }

/-- JavaScript `String.prototype.trim`: strip whitespace from both ends. -/
def jsTrim (s : String) : String :=
  ⟨((s.data.dropWhile Char.isWhitespace).reverse.dropWhile
      Char.isWhitespace).reverse⟩

/-- JavaScript `doc.pageContent.substring(0, 200) + ...` (server.js line 341):
the first 200 characters of a source document followed by an ellipsis. -/
def sourcePreview (s : String) : String :=
  String.mk (s.data.take 200) ++ "..."

/-! ## processDocument (server.js lines 104-215)

The embedding provider (`embeddings.embedDocuments`) and the per-call outcome
of `collection.add` are external; they enter as the oracles `embed` and
`addOk`. The function returns the JS result object (or the thrown error) next
to the state after all side effects, so failure paths keep their partial
effects on the ChromaDB contents while `currentCollection` is assigned only on
the success path (line 203). -/

/-- The JSON object returned by `processDocument` (server.js lines 205-210). -/
structure ProcessResult where
  success : Bool
  message : String
  collectionId : String
  chunksCount : Nat
deriving DecidableEq, Repr

/-- The collection name `collection_<collectionId>` (server.js line 131). -/
def collName (collectionId : String) : String :=
  "collection_" ++ collectionId

/-- The splitter output for an upload (server.js line 112). -/
def pdDocs (text : String) : List String :=
  chunkText text

/-- The chunk ids `<collectionId>_<index>` (server.js line 151). -/
def pdIds (collectionId : String) (n : Nat) : List String :=
  (List.range n).map fun i => collectionId ++ "_" ++ toString i

/-- Lines 160-173: keep the (document, id) pairs whose document is a nonempty
string after trimming; ids keep their original indices. -/
def pdValid (text collectionId : String) : List (String × String) :=
  ((pdDocs text).zip (pdIds collectionId (pdDocs text).length)).filter
    fun p => jsTrim p.1 ≠ ""

/-- The insertion loop of lines 190-200: one `collection.add` call per valid
document, in order; `addOk i` tells whether the `i`-th call succeeds, and a
failing call throws, leaving the documents already added in place. -/
def addLoop (addOk : Nat → Bool) (name : String) :
    ServerState → List (String × String × Embedding) → Nat →
    Option String × ServerState
  | st, [], _ => (none, st)
  | st, d :: rest, i =>
    if addOk i then
      addLoop addOk name (addToColl st name ⟨d.1, d.2.1, d.2.2⟩) rest (i + 1)
    else (some "add failed", st)

/-- server.js lines 104-215. `embed` is the external
`embeddings.embedDocuments` call (one vector per input on success, spec
section 4.3); `addOk` gives the outcome of each `collection.add` call. -/
def processDocument (embed : List String → Except String (List Embedding))
    (addOk : Nat → Bool) (st : ServerState) (text collectionId : String) :
    Except String ProcessResult × ServerState :=
  let docs := pdDocs text
  let name := collName collectionId
  let st1 := ensureColl st name
  if docs.length = 0 then (.error "No documents to process", st1)
  else
    let valid := pdValid text collectionId
    if valid.length = 0 then (.error "No valid documents found", st1)
    else
      match embed (valid.map Prod.fst) with
      | .error e => (.error e, st1)
      | .ok embs =>
        let items := (valid.zip embs).map fun p => (p.1.2, p.1.1, p.2)
        match addLoop addOk name st1 items 0 with
        | (some e, st2) => (.error e, st2)
        | (none, st2) =>
          (.ok { success := true, message := "Document processed successfully"
                 collectionId := collectionId, chunksCount := docs.length },
           { st2 with currentCollection := some name })

/-! ## POST /upload (server.js lines 33-55, 225-252, 496-500)

Multer runs before the route handler: a request without a file reaches the
handler with `req.file` undefined (400); a file whose mimetype is not
`application/pdf` is rejected by the `fileFilter` (line 52), is not written to
disk, and the error lands in the error-handling middleware of lines 496-500,
which answers 500. An accepted file is stored under
`uploads/<Date.now()>-<originalname>` (line 42). -/

structure UploadFile where
  originalname : String
  mimetype : String
  /-- The raw bytes of the file, fed to the external PDF parser. -/
  content : String
deriving DecidableEq, Repr

structure UploadRequest where
  file : Option UploadFile
deriving DecidableEq, Repr

structure UploadResponse where
  status : Nat
  error : Option String
  result : Option ProcessResult
deriving DecidableEq, Repr

/-- The disk path multer stores an accepted file under (server.js line 42). -/
def uploadPath (now : Nat) (f : UploadFile) : String :=
  "uploads/" ++ toString now ++ "-" ++ f.originalname

/-- server.js lines 225-252 plus the multer configuration and the error
middleware. `parse` is the external `pdf-parse` call on the file bytes;
`now` is `Date.now()`; `freshId` is the `uuidv4()` of line 231. -/
def uploadHandler (parse : String → Except String String)
    (embed : List String → Except String (List Embedding)) (addOk : Nat → Bool)
    (now : Nat) (freshId : String) (st : ServerState) (req : UploadRequest) :
    UploadResponse × ServerState :=
  match req.file with
  | none => ({ status := 400, error := some "No file uploaded", result := none }, st)
  | some f =>
    if f.mimetype = "application/pdf" then
      let path := uploadPath now f
      let st0 := { st with uploadsDir := path :: st.uploadsDir }
      match parse f.content with
      | .error _ =>
        ({ status := 500, error := some "Failed to process document", result := none }, st0)
      | .ok text =>
        if jsTrim text = "" then
          ({ status := 400, error := some "No text content found in PDF", result := none }, st0)
        else
          match processDocument embed addOk st0 text freshId with
          | (.error _, st1) =>
            ({ status := 500, error := some "Failed to process document", result := none }, st1)
          | (.ok r, st1) =>
            ({ status := 200, error := none, result := some r },
             { st1 with uploadsDir := st1.uploadsDir.erase path })
    else
      ({ status := 500, error := some "Internal server error", result := none }, st)

/-! ## POST /chat (server.js lines 255-389)

The handler destructures `{question, collectionId}` but `collectionId` is never
used afterwards: retrieval always goes through the process-wide
`currentCollection`. Question embedding plus `currentCollection.query`
(`nResults: 4`) is the external nearest-neighbour oracle `knn`; `llm` is the
external `llm.invoke`. The SSE events written to the response are collected in
order; `llmCalls` counts the `llm.invoke` calls made while producing them. -/

structure ChatRequest where
  question : Option String
  collectionId : Option String
deriving DecidableEq, Repr

inductive SseEvent where
  | start (message : String)
  | answer (answer : String) (sources : List String)
  | error (error : String)
  | done
deriving DecidableEq, Repr

inductive ChatResult where
  /-- A 400 JSON response; no SSE stream is opened. -/
  | badRequest (error : String)
  /-- An SSE stream: the name of the collection that was queried, the events
  emitted, and how many times the external completion model was invoked. -/
  | stream (queried : String) (events : List SseEvent) (llmCalls : Nat)
deriving DecidableEq, Repr

def ChatResult.status : ChatResult → Nat
  | .badRequest _ => 400
  | .stream _ _ _ => 200

def ChatResult.events : ChatResult → List SseEvent
  | .badRequest _ => []
  | .stream _ es _ => es

def ChatResult.queried : ChatResult → Option String
  | .badRequest _ => none
  | .stream n _ _ => some n

def ChatResult.llmCallCount : ChatResult → Nat
  | .badRequest _ => 0
  | .stream _ _ n => n

/-- The `start` event message (server.js line 276). -/
def startMessage : String := "Processing your question..."

/-- The canned answer of the zero-retrieval branch (server.js line 312). -/
def cannedNoInfo : String :=
  "I couldn't find any relevant information in the uploaded document to answer your question. Please make sure you have uploaded a document and try asking a different question."

/-- The error of the missing-collection check (server.js line 264). -/
def noDocumentError : String :=
  "No document loaded. Please upload a document first."

/-- The grounded prompt of server.js lines 324-331. -/
def mkPrompt (context question : String) : String :=
  "Based on the following context from the uploaded document, please answer the user's question. If the answer cannot be found in the context, say so.\n\nContext:\n"
    ++ context ++ "\n\nQuestion: " ++ question ++ "\n\nAnswer:"

/-- server.js lines 255-365. `knn q ds` is the composite of
`embeddings.embedQuery(q)` and `currentCollection.query` with `nResults: 4`
against a collection holding `ds`; `llm` is `llm.invoke`. -/
def chatHandler (knn : String → List StoredDoc → List String)
    (llm : String → String) (st : ServerState) (req : ChatRequest) : ChatResult :=
  match req.question with
  | none => .badRequest "Question is required"
  | some q =>
    match st.currentCollection with
    | none => .badRequest noDocumentError
    | some name =>
      let docs := knn q ((lookupColl st.collections name).getD [])
      if docs.length = 0 then
        .stream name [.start startMessage, .answer cannedNoInfo [], .done] 0
      else
        let answer := llm (mkPrompt (String.intercalate "\n\n" docs) q)
        .stream name
          [.start startMessage, .answer answer (docs.map sourcePreview), .done] 1

/-! ## GET /collection/:id (server.js lines 392-413) -/

structure CollectionResponse where
  status : Nat
  error : Option String
  collectionId : Option String
  documentCount : Option Nat
  statusField : Option String
deriving DecidableEq, Repr

/-- server.js lines 392-413: answers 404 whenever the `vectorStore` global is
null, and otherwise 200 with the count of the store behind the handle. -/
def collectionInfoHandler (st : ServerState) (id : String) : CollectionResponse :=
  match st.vectorStore with
  | none =>
    { status := 404, error := some "No collection found"
      collectionId := none, documentCount := none, statusField := none }
  | some h =>
    { status := 200, error := none, collectionId := some id
      documentCount := some ((lookupColl st.collections h).getD []).length
      statusField := some "active" }

/-! ## Concrete oracles and runs used by witnesses and counterexamples -/

/-- A PDF parser that extracts the stored bytes as text. -/
def okParse : String → Except String String := fun c => .ok c

/-- A PDF parser that fails on every input. -/
def failParse : String → Except String String := fun _ => .error "bad pdf"

/-- An embedding provider returning one (constant) vector per input. -/
def okEmbed : List String → Except String (List Embedding) :=
  fun ds => .ok (ds.map fun _ => [0])

/-- Every `collection.add` call succeeds. -/
def allAddsOk : Nat → Bool := fun _ => true

/-- A nearest-neighbour oracle returning the first four stored documents. -/
def knnAll : String → List StoredDoc → List String :=
  fun _ ds => (ds.map StoredDoc.text).take 4

/-- A completion model answering a fixed string. -/
def constLlm : String → String := fun _ => "an answer"

def pdfFileA : UploadFile :=
  { originalname := "a.pdf", mimetype := "application/pdf"
    content := "The sky is blue." }

def pdfFileB : UploadFile :=
  { originalname := "b.pdf", mimetype := "application/pdf"
    content := "Grass is green." }

def txtFile : UploadFile :=
  { originalname := "notes.txt", mimetype := "text/plain", content := "hello" }

/-- First upload: `a.pdf` under fresh id `A`, from the start-up state. -/
def upload1 : UploadResponse × ServerState :=
  uploadHandler okParse okEmbed allAddsOk 0 "A" initState { file := some pdfFileA }

/-- Second upload: `b.pdf` under fresh id `B`, after `upload1`. -/
def upload2 : UploadResponse × ServerState :=
  uploadHandler okParse okEmbed allAddsOk 1 "B" upload1.2 { file := some pdfFileB }

/-- A chat request that names the first collection explicitly. -/
def chatReqA : ChatRequest :=
  { question := some "What color is the sky?", collectionId := some "A" }

/-- A 1001-character text whose second chunk window (offsets 800 to 1001) is
whitespace only: the splitter produces two segments but only one survives the
valid-document filter of server.js lines 160-173. -/
def strictText : String := "a" ++ String.mk (List.replicate 1000 ' ')

/-- The result `processDocument` returns for `strictText` under fresh id `C`. -/
def strictResult : ProcessResult :=
  { success := true, message := "Document processed successfully"
    collectionId := "C", chunksCount := 2 }

/-- A state holding one registered, still empty collection: retrieval against
it returns zero neighbours. -/
def stEmptyColl : ServerState :=
  { vectorStore := none, currentCollection := some (collName "A")
    collections := [(collName "A", [])], uploadsDir := [] }

deriving instance DecidableEq for Except

set_option maxRecDepth 100000

/-! ## Chunker lemmas -/

theorem length_chunk (t : List Char) : (chunk t).length = numChunks t.length := by
  simp [chunk]

theorem getD_chunk (t : List Char) (j : Nat) (hj : j < numChunks t.length) :
    (chunk t).getD j [] = (t.drop ((chunkSize - chunkOverlap) * j)).take chunkSize := by
  rw [List.getD_eq_getElem _ _ (by simpa [length_chunk] using hj)]
  simp [chunk]

/-- A window that still has more than `chunkSize` characters ahead of it is
followed by a window that starts with its last `chunkOverlap` characters. -/
theorem window_overlap (t : List Char) (i : Nat) (hR : 1000 < t.length - 800 * i) :
    ((t.drop (800 * (i + 1))).take 1000).take 200
      = lastN 200 ((t.drop (800 * i)).take 1000) := by
  have hlen : ((t.drop (800 * i)).take 1000).length = 1000 := by
    simp [List.length_take, List.length_drop]
    omega
  rw [lastN, hlen]
  rw [List.drop_take, List.drop_drop]
  rw [List.take_take]
  have h1 : 800 * (i + 1) = 800 * i + 800 := by ring
  norm_num [h1]

theorem chunk_short (t : List Char) (h : t.length ≤ 1000) : chunk t = [t] := by
  have h1 : numChunks t.length = 1 := by simp [numChunks, chunkSize, h]
  have hT : List.take chunkSize t = t :=
    List.take_of_length_le (by simpa [chunkSize] using h)
  rw [chunk, h1, show List.range 1 = [0] from rfl]
  simp [hT]

/-! ## State-preservation lemmas -/

theorem ensureColl_currentCollection (st : ServerState) (n : String) :
    (ensureColl st n).currentCollection = st.currentCollection := by
  unfold ensureColl
  split <;> rfl

theorem ensureColl_uploadsDir (st : ServerState) (n : String) :
    (ensureColl st n).uploadsDir = st.uploadsDir := by
  unfold ensureColl
  split <;> rfl

theorem addLoop_currentCollection (addOk : Nat → Bool) (name : String)
    (items : List (String × String × Embedding)) :
    ∀ (st : ServerState) (i : Nat),
      (addLoop addOk name st items i).2.currentCollection = st.currentCollection := by
  induction items with
  | nil => intro st i; rfl
  | cons d rest ih =>
    intro st i
    rw [addLoop]
    by_cases hok : addOk i
    · rw [if_pos hok]; exact ih _ _
    · rw [if_neg hok]

theorem addLoop_uploadsDir (addOk : Nat → Bool) (name : String)
    (items : List (String × String × Embedding)) :
    ∀ (st : ServerState) (i : Nat),
      (addLoop addOk name st items i).2.uploadsDir = st.uploadsDir := by
  induction items with
  | nil => intro st i; rfl
  | cons d rest ih =>
    intro st i
    rw [addLoop]
    by_cases hok : addOk i
    · rw [if_pos hok]; exact ih _ _
    · rw [if_neg hok]

/-! ## Collection-content lemmas -/

theorem lookupColl_map_append (cs : List (String × List StoredDoc)) (n : String) (d : StoredDoc) :
    lookupColl (cs.map fun p => if p.1 = n then (p.1, p.2 ++ [d]) else p) n
      = (lookupColl cs n).map (fun ds => ds ++ [d]) := by
  induction cs with
  | nil => rfl
  | cons p rest ih =>
    obtain ⟨pn, pds⟩ := p
    simp only [List.map_cons]
    by_cases h : pn = n
    · rw [if_pos h]
      simp only [lookupColl]
      rw [if_pos h, if_pos h]
      rfl
    · rw [if_neg h]
      simp only [lookupColl]
      rw [if_neg h, if_neg h]
      exact ih

theorem lookupColl_addToColl (st : ServerState) (n : String) (d : StoredDoc) :
    lookupColl (addToColl st n d).collections n
      = (lookupColl st.collections n).map (fun ds => ds ++ [d]) :=
  lookupColl_map_append st.collections n d

theorem lookupColl_append_fresh (cs : List (String × List StoredDoc)) (n : String)
    (ds : List StoredDoc) (h : lookupColl cs n = none) :
    lookupColl (cs ++ [(n, ds)]) n = some ds := by
  induction cs with
  | nil => simp [lookupColl]
  | cons p rest ih =>
    obtain ⟨pn, pds⟩ := p
    simp only [lookupColl] at h
    simp only [List.cons_append, lookupColl]
    by_cases hp : pn = n
    · rw [if_pos hp] at h
      exact absurd h (by simp)
    · rw [if_neg hp] at h ⊢
      exact ih h

theorem ensureColl_lookup_fresh (st : ServerState) (n : String)
    (h : lookupColl st.collections n = none) :
    lookupColl (ensureColl st n).collections n = some [] := by
  unfold ensureColl
  rw [h]
  exact lookupColl_append_fresh st.collections n [] h

theorem addLoop_lookup (addOk : Nat → Bool) (name : String)
    (items : List (String × String × Embedding)) :
    ∀ (st : ServerState) (i : Nat) (ds : List StoredDoc),
      lookupColl st.collections name = some ds →
      (addLoop addOk name st items i).1 = none →
      lookupColl (addLoop addOk name st items i).2.collections name
        = some (ds ++ items.map fun d => ⟨d.1, d.2.1, d.2.2⟩) := by
  induction items with
  | nil =>
    intro st i ds h _
    simpa [addLoop] using h
  | cons d rest ih =>
    intro st i ds h hnone
    rw [addLoop] at hnone ⊢
    by_cases hok : addOk i
    · rw [if_pos hok] at hnone ⊢
      have h2 : lookupColl (addToColl st name ⟨d.1, d.2.1, d.2.2⟩).collections name
          = some (ds ++ [⟨d.1, d.2.1, d.2.2⟩]) := by
        rw [lookupColl_addToColl, h]
        rfl
      have h3 := ih (addToColl st name ⟨d.1, d.2.1, d.2.2⟩) (i + 1)
        (ds ++ [(⟨d.1, d.2.1, d.2.2⟩ : StoredDoc)]) h2 hnone
      simpa [List.append_assoc] using h3
    · rw [if_neg hok] at hnone
      exact absurd hnone (by simp)

/-! ## processDocument lemmas -/

theorem processDocument_snd (embed : List String → Except String (List Embedding))
    (addOk : Nat → Bool) (st : ServerState) (text cid : String) :
    (processDocument embed addOk st text cid).2.uploadsDir = st.uploadsDir ∧
    ((processDocument embed addOk st text cid).2.currentCollection = st.currentCollection ∨
      ∃ r, (processDocument embed addOk st text cid).1 = .ok r ∧
        (processDocument embed addOk st text cid).2.currentCollection
          = some (collName cid)) := by
  unfold processDocument
  by_cases h0 : (pdDocs text).length = 0
  · rw [if_pos h0]
    exact ⟨ensureColl_uploadsDir st _, Or.inl (ensureColl_currentCollection st _)⟩
  · rw [if_neg h0]
    by_cases h1 : (pdValid text cid).length = 0
    · rw [if_pos h1]
      exact ⟨ensureColl_uploadsDir st _, Or.inl (ensureColl_currentCollection st _)⟩
    · rw [if_neg h1]
      cases hembed : embed ((pdValid text cid).map Prod.fst) with
      | error e =>
        exact ⟨ensureColl_uploadsDir st _, Or.inl (ensureColl_currentCollection st _)⟩
      | ok embs =>
        dsimp only
        rcases hloop : addLoop addOk (collName cid) (ensureColl st (collName cid))
            (((pdValid text cid).zip embs).map fun p => (p.1.2, p.1.1, p.2)) 0
          with ⟨res, st2⟩
        have hup : st2.uploadsDir = st.uploadsDir := by
          have h2 := addLoop_uploadsDir addOk (collName cid)
            (((pdValid text cid).zip embs).map fun p => (p.1.2, p.1.1, p.2))
            (ensureColl st (collName cid)) 0
          rw [hloop] at h2
          rw [h2, ensureColl_uploadsDir]
        have hcc : st2.currentCollection = st.currentCollection := by
          have h2 := addLoop_currentCollection addOk (collName cid)
            (((pdValid text cid).zip embs).map fun p => (p.1.2, p.1.1, p.2))
            (ensureColl st (collName cid)) 0
          rw [hloop] at h2
          rw [h2, ensureColl_currentCollection]
        rw [hloop]
        cases res with
        | some e => exact ⟨hup, Or.inl hcc⟩
        | none => exact ⟨hup, Or.inr ⟨_, rfl, rfl⟩⟩

theorem processDocument_ok_counts (embed : List String → Except String (List Embedding))
    (addOk : Nat → Bool) (st : ServerState) (text cid : String) (r : ProcessResult)
    (hemb : ∀ ds es, embed ds = .ok es → es.length = ds.length)
    (hfresh : lookupColl st.collections (collName cid) = none)
    (hok : (processDocument embed addOk st text cid).1 = .ok r) :
    r.chunksCount = (pdDocs text).length ∧
    ((lookupColl (processDocument embed addOk st text cid).2.collections
        (collName cid)).getD []).length = (pdValid text cid).length := by
  unfold processDocument at hok ⊢
  by_cases h0 : (pdDocs text).length = 0
  · rw [if_pos h0] at hok
    exact absurd hok (by simp)
  · rw [if_neg h0] at hok ⊢
    by_cases h1 : (pdValid text cid).length = 0
    · rw [if_pos h1] at hok
      exact absurd hok (by simp)
    · rw [if_neg h1] at hok ⊢
      cases hembed : embed ((pdValid text cid).map Prod.fst) with
      | error e =>
        rw [hembed] at hok
        dsimp only at hok
        exact absurd hok (by simp)
      | ok embs =>
        rw [hembed] at hok
        dsimp only at hok ⊢
        rcases hloop : addLoop addOk (collName cid) (ensureColl st (collName cid))
            (((pdValid text cid).zip embs).map fun p => (p.1.2, p.1.1, p.2)) 0
          with ⟨res, st2⟩
        rw [hloop] at hok ⊢
        cases res with
        | some e => exact absurd hok (by simp)
        | none =>
          dsimp only at hok ⊢
          injection hok with hr
          subst hr
          refine ⟨rfl, ?_⟩
          have hlk := addLoop_lookup addOk (collName cid)
            (((pdValid text cid).zip embs).map fun p => (p.1.2, p.1.1, p.2))
            (ensureColl st (collName cid)) 0 []
            (ensureColl_lookup_fresh st (collName cid) hfresh)
            (by rw [hloop])
          rw [hloop] at hlk
          have hlen : embs.length = (pdValid text cid).length := by
            rw [hemb _ _ hembed, List.length_map]
          simp [hlk, List.length_map, List.length_zip, hlen]

/-! ## Claim theorems: request handling -/

theorem uploadHandler_registry (parse : String → Except String String)
    (embed : List String → Except String (List Embedding)) (addOk : Nat → Bool)
    (now : Nat) (fid : String) (st : ServerState) (req : UploadRequest) :
    (uploadHandler parse embed addOk now fid st req).1.status = 200 ∨
    (uploadHandler parse embed addOk now fid st req).2.currentCollection
      = st.currentCollection := by
  unfold uploadHandler
  cases req.file with
  | none => exact Or.inr rfl
  | some f =>
    dsimp only
    by_cases hm : f.mimetype = "application/pdf"
    · rw [if_pos hm]
      cases parse f.content with
      | error e => exact Or.inr rfl
      | ok text =>
        dsimp only
        by_cases ht : jsTrim text = ""
        · rw [if_pos ht]
          exact Or.inr rfl
        · rw [if_neg ht]
          rcases hpd : processDocument embed addOk
              { st with uploadsDir := uploadPath now f :: st.uploadsDir } text fid
            with ⟨res, st1⟩
          cases res with
          | error e =>
            refine Or.inr ?_
            dsimp only
            have hsnd := (processDocument_snd embed addOk
              { st with uploadsDir := uploadPath now f :: st.uploadsDir } text fid).2
            rw [hpd] at hsnd
            rcases hsnd with hcc | ⟨r, hok, _⟩
            · exact hcc
            · exact absurd hok (by simp)
          | ok r => exact Or.inl rfl
    · rw [if_neg hm]
      exact Or.inr rfl

/-- C5: if any step of upload processing fails (extraction, the empty-text
check, chunking, embedding, or store insertion) the response is not a 200, and
then the session registry (`currentCollection`) is exactly what it was before
the request: nothing is registered or partially registered, so chat requests
still resolve to the previously registered handle. -/
theorem c5_failed_upload_preserves_registry (parse : String → Except String String)
    (embed : List String → Except String (List Embedding)) (addOk : Nat → Bool)
    (now : Nat) (fid : String) (st : ServerState) (req : UploadRequest)
    (h : (uploadHandler parse embed addOk now fid st req).1.status ≠ 200) :
    (uploadHandler parse embed addOk now fid st req).2.currentCollection
      = st.currentCollection :=
  (uploadHandler_registry parse embed addOk now fid st req).resolve_left h

/-- C4: every POST /chat request whose `question` is missing, and every one
arriving while no collection is registered, gets a 400 JSON error response
(`Question is required`, respectively the no-document error) and no SSE stream
is opened: the result carries no start, answer or end event. -/
theorem c4_chat_validation (knn : String → List StoredDoc → List String)
    (llm : String → String) (st : ServerState) (req : ChatRequest)
    (h : req.question = none ∨ st.currentCollection = none) :
    (chatHandler knn llm st req).status = 400 ∧
    (chatHandler knn llm st req).events = [] ∧
    chatHandler knn llm st req = .badRequest
      (if req.question = none then "Question is required" else noDocumentError) := by
  unfold chatHandler
  cases hq : req.question with
  | none => simp [ChatResult.status, ChatResult.events]
  | some q =>
    rcases h with h | h
    · rw [hq] at h
      exact absurd h (by simp)
    · rw [h]
      simp [ChatResult.status, ChatResult.events]

/-- C6: for a chat against a registered collection for which retrieval returns
zero context segments, the handler emits exactly the start event, one canned
no-relevant-information answer event with empty sources, and the end event, and
the external completion model is invoked zero times (the `llm` oracle is
universally quantified and unused). -/
theorem c6_zero_retrieval_canned_answer (knn : String → List StoredDoc → List String)
    (llm : String → String) (st : ServerState) (q name : String) (req : ChatRequest)
    (hq : req.question = some q) (hc : st.currentCollection = some name)
    (hz : knn q ((lookupColl st.collections name).getD []) = []) :
    chatHandler knn llm st req =
      .stream name [.start startMessage, .answer cannedNoInfo [], .done] 0 ∧
    (chatHandler knn llm st req).llmCallCount = 0 := by
  have h1 : chatHandler knn llm st req =
      .stream name [.start startMessage, .answer cannedNoInfo [], .done] 0 := by
    unfold chatHandler
    rw [hq]
    dsimp only
    rw [hc]
    dsimp only
    rw [hz]
    rfl
  exact ⟨h1, by rw [h1]; rfl⟩

/-- C10: for an accepted PDF upload, the stored temporary file
`uploads/<now>-<originalname>` is deleted only on the success path: any non-200
outcome (parse failure, empty text, processing failure) leaves it in the
uploads directory, and a 200 outcome removes it, restoring the directory. -/
theorem c10_temp_file_retained_on_failure (parse : String → Except String String)
    (embed : List String → Except String (List Embedding)) (addOk : Nat → Bool)
    (now : Nat) (fid : String) (st : ServerState) (req : UploadRequest) (f : UploadFile)
    (hf : req.file = some f) (hm : f.mimetype = "application/pdf") :
    ((uploadHandler parse embed addOk now fid st req).1.status ≠ 200 →
      uploadPath now f ∈ (uploadHandler parse embed addOk now fid st req).2.uploadsDir) ∧
    ((uploadHandler parse embed addOk now fid st req).1.status = 200 →
      (uploadHandler parse embed addOk now fid st req).2.uploadsDir = st.uploadsDir) := by
  unfold uploadHandler
  rw [hf]
  dsimp only
  rw [if_pos hm]
  cases parse f.content with
  | error e =>
    refine ⟨fun _ => ?_, fun hs => by dsimp only at hs; exact absurd hs (by decide)⟩
    exact List.mem_cons_self _ _
  | ok text =>
    dsimp only
    by_cases ht : jsTrim text = ""
    · rw [if_pos ht]
      refine ⟨fun _ => ?_, fun hs => by dsimp only at hs; exact absurd hs (by decide)⟩
      exact List.mem_cons_self _ _
    · rw [if_neg ht]
      rcases hpd : processDocument embed addOk
          { st with uploadsDir := uploadPath now f :: st.uploadsDir } text fid
        with ⟨res, st1⟩
      have hup : st1.uploadsDir = uploadPath now f :: st.uploadsDir := by
        have h2 := (processDocument_snd embed addOk
          { st with uploadsDir := uploadPath now f :: st.uploadsDir } text fid).1
        rw [hpd] at h2
        exact h2
      cases res with
      | error e =>
        refine ⟨fun _ => ?_, fun hs => by dsimp only at hs; exact absurd hs (by decide)⟩
        dsimp only
        rw [hup]
        exact List.mem_cons_self _ _
      | ok r =>
        refine ⟨fun hne => absurd rfl hne, fun _ => ?_⟩
        dsimp only
        rw [hup, List.erase_cons_head]

/-- C3 counterexample: uploading a non-PDF file (`notes.txt`,
`text/plain`) from the start-up state answers 500, not the 400 the claim
states: the multer fileFilter error lands in the generic error-handling
middleware of server.js lines 496-500. -/
theorem c3_counterexample_nonpdf_is_500 :
    (uploadHandler okParse okEmbed allAddsOk 0 "A" initState
        { file := some txtFile }).1.status = 500 ∧
    (uploadHandler okParse okEmbed allAddsOk 0 "A" initState
        { file := some txtFile }).1.status ≠ 400 := by
  decide

/-- C3 amended: for every POST /upload request whose file is not a PDF, the
response status is 500 (`Internal server error`, from the error-handling
middleware), the whole server state - registry included - is unchanged by the
request, and a subsequent chat against any collection id still fails with the
400 no-document error, with no SSE stream opened. -/
theorem c3_nonpdf_upload_500_registry_unchanged (parse : String → Except String String)
    (embed : List String → Except String (List Embedding)) (addOk : Nat → Bool)
    (now : Nat) (fid : String) (st : ServerState) (req : UploadRequest) (f : UploadFile)
    (knn : String → List StoredDoc → List String) (llm : String → String)
    (q : String) (cid : Option String)
    (hf : req.file = some f) (hm : f.mimetype ≠ "application/pdf")
    (hcc : st.currentCollection = none) :
    (uploadHandler parse embed addOk now fid st req).1.status = 500 ∧
    (uploadHandler parse embed addOk now fid st req).1.error
      = some "Internal server error" ∧
    (uploadHandler parse embed addOk now fid st req).2 = st ∧
    chatHandler knn llm (uploadHandler parse embed addOk now fid st req).2
        { question := some q, collectionId := cid } = .badRequest noDocumentError ∧
    (chatHandler knn llm (uploadHandler parse embed addOk now fid st req).2
        { question := some q, collectionId := cid }).events = [] := by
  have hu : uploadHandler parse embed addOk now fid st req
      = ({ status := 500, error := some "Internal server error", result := none }, st) := by
    unfold uploadHandler
    rw [hf]
    dsimp only
    rw [if_neg hm]
  rw [hu]
  have hc : chatHandler knn llm st { question := some q, collectionId := cid }
      = .badRequest noDocumentError := by
    unfold chatHandler
    dsimp only
    rw [hcc]
  exact ⟨rfl, rfl, rfl, hc, by rw [hc]; rfl⟩

/-- C1: concrete failing trace for the claim that retrieval resolves to the
collection identified by the request's `collectionId`. Upload `a.pdf` under
fresh id `A` (registering `collection_A`), then `b.pdf` under fresh id `B`;
both succeed and `collection_A` still holds exactly the first document. A chat
request naming `collectionId = "A"` nevertheless queries `collection_B` - the
handler reads the process-wide `currentCollection` and never uses the
request's `collectionId` (server.js line 298) - and its answer event cites the
second document's text as its source. -/
theorem c1_chat_ignores_requested_collection :
    upload1.1.status = 200 ∧
    upload1.2.currentCollection = some (collName "A") ∧
    upload2.1.status = 200 ∧
    upload2.2.currentCollection = some (collName "B") ∧
    lookupColl upload2.2.collections (collName "A")
      = some [{ id := "A_0", text := "The sky is blue.", embedding := [0] }] ∧
    chatReqA.collectionId = some "A" ∧
    (chatHandler knnAll constLlm upload2.2 chatReqA).queried = some (collName "B") ∧
    (chatHandler knnAll constLlm upload2.2 chatReqA).events
      = [.start startMessage, .answer "an answer" ["Grass is green...."], .done] := by
  decide

/-- C2: concrete failing trace for the claim that GET /collection/:id answers
200 for a previously uploaded id. After a successful upload under id `A` (the
registry holds `collection_A`), `GET /collection/A` still answers
404 `No collection found`, because the handler tests the `vectorStore` global
(server.js line 396), which is initialised to null at line 58 and never
assigned anywhere; unknown ids get the same 404. -/
theorem c2_collection_info_always_404 :
    upload1.1.status = 200 ∧
    upload1.2.currentCollection = some (collName "A") ∧
    upload1.2.vectorStore = none ∧
    collectionInfoHandler upload1.2 "A"
      = { status := 404, error := some "No collection found", collectionId := none
          documentCount := none, statusField := none } ∧
    collectionInfoHandler initState "Z"
      = { status := 404, error := some "No collection found", collectionId := none
          documentCount := none, statusField := none } := by
  decide

/-! ## Claim theorems: chunking and chunk counting -/

/-- C7 (spec-modelled chunker): every text whose length is strictly below the
configured chunk size of 1000 characters is chunked into exactly one segment,
and that segment is the text itself. -/
theorem c7_short_text_single_chunk (s : String) (h : s.length < chunkSize) :
    chunkText s = [s] := by
  have h2 : s.data.length ≤ 1000 := by simpa [chunkSize] using Nat.le_of_lt h
  rw [chunkText, chunk_short s.data h2]
  rfl

theorem c7_witness :
    ("hello" : String).length < chunkSize ∧ chunkText "hello" = ["hello"] :=
  ⟨by decide, c7_short_text_single_chunk "hello" (by decide)⟩

/-- C8 (spec-modelled chunker): for a text of at least the chunk size, every
segment after the first begins with the last `chunkOverlap` (200) characters of
the previous segment: adjacent segments overlap by exactly the configured
overlap. -/
theorem c8_adjacent_chunks_overlap (t : List Char) (h : chunkSize ≤ t.length)
    (i : Nat) (hi : i + 1 < (chunk t).length) :
    ((chunk t).getD (i + 1) []).take chunkOverlap
      = lastN chunkOverlap ((chunk t).getD i []) := by
  rw [length_chunk] at hi
  have g1 := getD_chunk t (i + 1) hi
  have g2 := getD_chunk t i (by omega)
  rw [g1, g2]
  simp only [numChunks, chunkSize, chunkOverlap] at hi ⊢
  by_cases hL : t.length ≤ 1000
  · rw [if_pos hL] at hi
    omega
  · rw [if_neg hL] at hi
    norm_num at hi ⊢
    have hR : 1000 < t.length - 800 * i := by omega
    exact window_overlap t i hR

theorem c8_witness :
    chunkSize ≤ (List.replicate 1001 'a').length ∧
    0 + 1 < (chunk (List.replicate 1001 'a')).length ∧
    ((chunk (List.replicate 1001 'a')).getD (0 + 1) []).take chunkOverlap
      = lastN chunkOverlap ((chunk (List.replicate 1001 'a')).getD 0 []) := by
  have h1 : chunkSize ≤ (List.replicate 1001 'a').length := by
    norm_num [chunkSize]
  have h2 : 0 + 1 < (chunk (List.replicate 1001 'a')).length := by
    norm_num [length_chunk, numChunks, chunkSize, chunkOverlap]
  exact ⟨h1, h2, c8_adjacent_chunks_overlap _ h1 0 h2⟩

/-- C9: on every successful `processDocument` run against a fresh collection,
the returned `chunksCount` equals the total number of segments produced by the
text splitter, while the number of documents actually inserted into the
collection equals the number of segments surviving the whitespace filter
(`pdValid`), which is at most `chunksCount`; and for the concrete `strictText`
(one letter followed by 1000 spaces, whose second segment is whitespace only)
`chunksCount = 2` strictly exceeds the single inserted document. -/
theorem c9_chunksCount_counts_all_segments :
    (∀ (embed : List String → Except String (List Embedding)) (addOk : Nat → Bool)
      (st : ServerState) (text cid : String) (r : ProcessResult),
      (∀ ds es, embed ds = .ok es → es.length = ds.length) →
      lookupColl st.collections (collName cid) = none →
      (processDocument embed addOk st text cid).1 = .ok r →
      r.chunksCount = (pdDocs text).length ∧
      ((lookupColl (processDocument embed addOk st text cid).2.collections
          (collName cid)).getD []).length = (pdValid text cid).length ∧
      (pdValid text cid).length ≤ r.chunksCount) ∧
    ((processDocument okEmbed allAddsOk initState strictText "C").1 = .ok strictResult ∧
      ((lookupColl (processDocument okEmbed allAddsOk initState strictText "C").2.collections
          (collName "C")).getD []).length < strictResult.chunksCount) := by
  constructor
  · intro embed addOk st text cid r hemb hfresh hok
    obtain ⟨h1, h2⟩ := processDocument_ok_counts embed addOk st text cid r hemb hfresh hok
    refine ⟨h1, h2, ?_⟩
    rw [h1]
    calc (pdValid text cid).length
        ≤ ((pdDocs text).zip (pdIds cid (pdDocs text).length)).length := by
          unfold pdValid
          exact List.length_filter_le _ _
      _ ≤ (pdDocs text).length := by
          simp [List.length_zip, pdIds]
  · exact ⟨by decide, by decide⟩

theorem c9_witness :
    (∀ ds es, okEmbed ds = .ok es → es.length = ds.length) ∧
    lookupColl initState.collections (collName "C") = none ∧
    (processDocument okEmbed allAddsOk initState strictText "C").1 = .ok strictResult ∧
    (strictResult.chunksCount = (pdDocs strictText).length ∧
      ((lookupColl (processDocument okEmbed allAddsOk initState strictText "C").2.collections
          (collName "C")).getD []).length = (pdValid strictText "C").length ∧
      (pdValid strictText "C").length ≤ strictResult.chunksCount) := by
  have hemb : ∀ ds es, okEmbed ds = .ok es → es.length = ds.length := by
    intro ds es h
    simp only [okEmbed] at h
    injection h with h2
    rw [← h2, List.length_map]
  exact ⟨hemb, rfl, by decide,
    c9_chunksCount_counts_all_segments.1 okEmbed allAddsOk initState strictText "C"
      strictResult hemb rfl (by decide)⟩

/-! ## Remaining witnesses -/

theorem c3_witness :
    ({ file := some txtFile } : UploadRequest).file = some txtFile ∧
    txtFile.mimetype ≠ "application/pdf" ∧
    initState.currentCollection = none ∧
    ((uploadHandler okParse okEmbed allAddsOk 0 "A" initState
        { file := some txtFile }).1.status = 500 ∧
      (uploadHandler okParse okEmbed allAddsOk 0 "A" initState
        { file := some txtFile }).1.error = some "Internal server error" ∧
      (uploadHandler okParse okEmbed allAddsOk 0 "A" initState
        { file := some txtFile }).2 = initState ∧
      chatHandler knnAll constLlm (uploadHandler okParse okEmbed allAddsOk 0 "A" initState
          { file := some txtFile }).2
          { question := some "hi", collectionId := none } = .badRequest noDocumentError ∧
      (chatHandler knnAll constLlm (uploadHandler okParse okEmbed allAddsOk 0 "A" initState
          { file := some txtFile }).2
          { question := some "hi", collectionId := none }).events = []) :=
  ⟨rfl, by decide, rfl,
    c3_nonpdf_upload_500_registry_unchanged okParse okEmbed allAddsOk 0 "A" initState
      { file := some txtFile } txtFile knnAll constLlm "hi" none rfl (by decide) rfl⟩

theorem c4_witness :
    (({ question := some "hi", collectionId := none } : ChatRequest).question = none ∨
      initState.currentCollection = none) ∧
    ((chatHandler knnAll constLlm initState
        { question := some "hi", collectionId := none }).status = 400 ∧
      (chatHandler knnAll constLlm initState
        { question := some "hi", collectionId := none }).events = [] ∧
      chatHandler knnAll constLlm initState
          { question := some "hi", collectionId := none } = .badRequest
        (if ({ question := some "hi", collectionId := none } : ChatRequest).question = none
          then "Question is required" else noDocumentError)) :=
  ⟨Or.inr rfl,
    c4_chat_validation knnAll constLlm initState
      { question := some "hi", collectionId := none } (Or.inr rfl)⟩

theorem c5_witness :
    (uploadHandler failParse okEmbed allAddsOk 2 "D" upload1.2
        { file := some pdfFileB }).1.status ≠ 200 ∧
    (uploadHandler failParse okEmbed allAddsOk 2 "D" upload1.2
        { file := some pdfFileB }).2.currentCollection = upload1.2.currentCollection :=
  ⟨by decide,
    c5_failed_upload_preserves_registry failParse okEmbed allAddsOk 2 "D" upload1.2
      { file := some pdfFileB } (by decide)⟩

theorem c6_witness :
    ({ question := some "hi", collectionId := none } : ChatRequest).question = some "hi" ∧
    stEmptyColl.currentCollection = some (collName "A") ∧
    knnAll "hi" ((lookupColl stEmptyColl.collections (collName "A")).getD []) = [] ∧
    (chatHandler knnAll constLlm stEmptyColl
        { question := some "hi", collectionId := none } =
      .stream (collName "A") [.start startMessage, .answer cannedNoInfo [], .done] 0 ∧
      (chatHandler knnAll constLlm stEmptyColl
        { question := some "hi", collectionId := none }).llmCallCount = 0) :=
  ⟨rfl, rfl, by decide,
    c6_zero_retrieval_canned_answer knnAll constLlm stEmptyColl "hi" (collName "A")
      { question := some "hi", collectionId := none } rfl rfl (by decide)⟩

theorem c10_witness :
    ({ file := some pdfFileA } : UploadRequest).file = some pdfFileA ∧
    pdfFileA.mimetype = "application/pdf" ∧
    (((uploadHandler failParse okEmbed allAddsOk 0 "A" initState
          { file := some pdfFileA }).1.status ≠ 200 →
        uploadPath 0 pdfFileA ∈ (uploadHandler failParse okEmbed allAddsOk 0 "A" initState
          { file := some pdfFileA }).2.uploadsDir) ∧
      ((uploadHandler failParse okEmbed allAddsOk 0 "A" initState
          { file := some pdfFileA }).1.status = 200 →
        (uploadHandler failParse okEmbed allAddsOk 0 "A" initState
          { file := some pdfFileA }).2.uploadsDir = initState.uploadsDir)) :=
  ⟨rfl, rfl,
    c10_temp_file_retained_on_failure failParse okEmbed allAddsOk 0 "A" initState
      { file := some pdfFileA } pdfFileA rfl rfl⟩

end RagServer

